import Mathlib

/-
Shallow embedding of `src/main.cpp` (Example 3.5 / TP03, mbed gas+temperature
alarm with code lock), together with proofs of the specification's claims.

Modelling conventions:
- C++ `float` is modelled as `ℚ` (exact rationals); the literals 3.3 and 0.01
  become 33/10 and 1/100.
- Digital reads (`DigitalIn`) are `Bool`; `ON`/`OFF` become `true`/`false`.
- The global mutable variables of main.cpp become the fields of `SysState`.
- One iteration of the `while (true)` main loop is `mainTick`, which runs
  `alarmActivationUpdate`, then `alarmDeactivationUpdate`, then `uartTask`,
  exactly as in `main()`.
- The UART is modelled by an input event: `none` when `uartUsb.readable()` is
  false, otherwise `some (c, digits)` where `c` is the dispatched command byte
  and `digits` are the four bytes the blocking `uartUsb.read` calls return
  inside the '4' / '5' sub-protocols.  The '*' echoes written during those
  sub-protocols are returned by the loop functions as `List Char`.
- The 4-iteration `for` loops over `buttonBeingCompared` are unrolled
  (NUMBER_OF_KEYS is the compile-time constant 4).
-/

namespace GasAlarm

/-- `#define NUMBER_OF_KEYS 4` -/
def NUMBER_OF_KEYS : Nat := 4

/-- `#define BLINKING_TIME_GAS_ALARM 1000` -/
def BLINKING_TIME_GAS_ALARM : Nat := 1000

/-- `#define BLINKING_TIME_OVER_TEMP_ALARM 500` -/
def BLINKING_TIME_OVER_TEMP_ALARM : Nat := 500

/-- `#define BLINKING_TIME_GAS_AND_OVER_TEMP_ALARM 100` -/
def BLINKING_TIME_GAS_AND_OVER_TEMP_ALARM : Nat := 100

/-- `#define NUMBER_OF_AVG_SAMPLES 100` -/
def NUMBER_OF_AVG_SAMPLES : Nat := 100

/-- `#define OVER_TEMP_LEVEL 50` -/
def OVER_TEMP_LEVEL : ℚ := 50

/-- `#define TIME_INCREMENT_MS 10` -/
def TIME_INCREMENT_MS : Nat := 10

/-- The global mutable state of main.cpp (globals plus the `static`
local `lm35SampleIndex` of `alarmActivationUpdate`), and the output
latches (LEDs, siren pin direction). -/
structure SysState where
  alarmState : Bool
  incorrectCode : Bool
  overTempDetector : Bool
  numberOfIncorrectCodes : Nat
  codeSequence : Fin 4 → ℤ
  buttonsPressed : Fin 4 → ℤ
  accumulatedTimeAlarm : Nat
  gasDetectorState : Bool
  overTempDetectorState : Bool
  potentiometerReading : ℚ
  lm35ReadingsArray : Fin 100 → ℚ
  lm35SampleIndex : Nat
  lm35TempC : ℚ
  alarmLed : Bool
  incorrectCodeLed : Bool
  systemBlockedLed : Bool
  sirenOutput : Bool

/-- The input pins sampled in one loop iteration, plus the UART event:
`serial = none` models `uartUsb.readable() == false`; `serial = some (c, d)`
models a received command byte `c`, with `d` the four bytes delivered by the
blocking reads of the '4'/'5' sub-protocols (unused for other commands).
`mq2` is the raw active-low gas-sensor read. -/
structure Inputs where
  mq2 : Bool
  alarmTestButton : Bool
  aButton : Bool
  bButton : Bool
  cButton : Bool
  dButton : Bool
  enterButton : Bool
  lm35Read : ℚ
  potRead : ℚ
  serial : Option (Char × (Fin 4 → Char))

/-- Reading a `DigitalIn` into an `int` array slot (`buttonsPressed[0] = aButton;`). -/
def boolToInt (b : Bool) : ℤ := if b then 1 else 0

/-- The four keypad reads stored into `buttonsPressed[0..3]`. -/
def pressedOf (inp : Inputs) : Fin 4 → ℤ :=
  ![boolToInt inp.aButton, boolToInt inp.bButton, boolToInt inp.cButton, boolToInt inp.dButton]

/-- `lm35ReadingsArray[lm35SampleIndex] = lm35.read();` — write one slot of the
circular buffer (a no-op on out-of-range cursor, which never occurs: see the
cursor invariant in `temperature_filter_mean`). -/
def bufWrite (arr : Fin 100 → ℚ) (idx : Nat) (v : ℚ) : Fin 100 → ℚ :=
  fun j => if j.val = idx then v else arr j

/-- `lm35SampleIndex++; if (lm35SampleIndex >= NUMBER_OF_AVG_SAMPLES) lm35SampleIndex = 0;` -/
def nextIndex (idx : Nat) : Nat :=
  if idx + 1 ≥ NUMBER_OF_AVG_SAMPLES then 0 else idx + 1

/-- The summation loop `for (i = 0; i < NUMBER_OF_AVG_SAMPLES; i++)
lm35ReadingsSum = lm35ReadingsSum + lm35ReadingsArray[i];` starting from
`lm35ReadingsSum = 0.0`. -/
def readingsSum (arr : Fin 100 → ℚ) : ℚ :=
  (List.finRange 100).foldl (fun acc j => acc + arr j) 0

/-- `float analogReadingScaledWithTheLM35Formula(float analogReading)
{ return (analogReading * 3.3 / 0.01); }` -/
def analogReadingScaledWithTheLM35Formula (analogReading : ℚ) : ℚ :=
  analogReading * (33/10) / (1/100)

/-- `float celsiusToFahrenheit(float t) { return (t * 9.0 / 5.0 + 32.0); }` -/
def celsiusToFahrenheit (tempInCelsiusDegrees : ℚ) : ℚ :=
  tempInCelsiusDegrees * 9 / 5 + 32

/-- The temperature recomputed after a buffer write:
average of the whole buffer fed through the LM35 formula. -/
def computedTempC (arr : Fin 100 → ℚ) : ℚ :=
  analogReadingScaledWithTheLM35Formula (readingsSum arr / 100)

/-- First part of `alarmActivationUpdate`: sample the LM35 into the circular
buffer, advance the cursor, recompute average and Celsius value, and set
`overTempDetector` by comparing against `OVER_TEMP_LEVEL`. -/
def sensorStep (s : SysState) (inp : Inputs) : SysState :=
  let arr := bufWrite s.lm35ReadingsArray s.lm35SampleIndex inp.lm35Read
  let t := computedTempC arr
  { s with
    lm35ReadingsArray := arr
    lm35SampleIndex := nextIndex s.lm35SampleIndex
    lm35TempC := t
    overTempDetector := decide (t > OVER_TEMP_LEVEL) }

/-- Second part of `alarmActivationUpdate`: the three cause `if`s
(`!mq2`, `overTempDetector`, `alarmTestButton`), each of which turns the
alarm on and latches its cause flags. -/
def causeStep (s : SysState) (inp : Inputs) : SysState :=
  let s2 := if inp.mq2 = false then { s with gasDetectorState := true, alarmState := true } else s
  let s3 := if s2.overTempDetector = true then
              { s2 with overTempDetectorState := true, alarmState := true } else s2
  if inp.alarmTestButton = true then
    { s3 with overTempDetectorState := true, gasDetectorState := true, alarmState := true }
  else s3

/-- Third part of `alarmActivationUpdate`: when the alarm is on, accumulate
the tick, drive the siren pin as output (LOW), and toggle the alarm LED at
the cadence selected by the cause flags; when the alarm is off, force the
LED off, clear the cause flags and tri-state the siren pin. -/
def blinkUpdate (s : SysState) : SysState :=
  if s.alarmState = true then
    let acc := s.accumulatedTimeAlarm + TIME_INCREMENT_MS
    let sb := { s with accumulatedTimeAlarm := acc, sirenOutput := true }
    if sb.gasDetectorState && sb.overTempDetectorState then
      if acc ≥ BLINKING_TIME_GAS_AND_OVER_TEMP_ALARM then
        { sb with accumulatedTimeAlarm := 0, alarmLed := !sb.alarmLed }
      else sb
    else if sb.gasDetectorState then
      if acc ≥ BLINKING_TIME_GAS_ALARM then
        { sb with accumulatedTimeAlarm := 0, alarmLed := !sb.alarmLed }
      else sb
    else if sb.overTempDetectorState then
      if acc ≥ BLINKING_TIME_OVER_TEMP_ALARM then
        { sb with accumulatedTimeAlarm := 0, alarmLed := !sb.alarmLed }
      else sb
    else sb
  else
    { s with alarmLed := false, gasDetectorState := false,
             overTempDetectorState := false, sirenOutput := false }

/-- `void alarmActivationUpdate()` of main.cpp. -/
def alarmActivationUpdate (s : SysState) (inp : Inputs) : SysState :=
  blinkUpdate (causeStep (sensorStep s inp) inp)

/-- `bool areEqual()` — compares `codeSequence` against `buttonsPressed`
position by position, returning `false` at the first difference. -/
def areEqual (code pressed : Fin 4 → ℤ) : Bool :=
  if code 0 ≠ pressed 0 then false
  else if code 1 ≠ pressed 1 then false
  else if code 2 ≠ pressed 2 then false
  else if code 3 ≠ pressed 3 then false
  else true

/-- `void alarmDeactivationUpdate()` of main.cpp. -/
def alarmDeactivationUpdate (s : SysState) (inp : Inputs) : SysState :=
  if s.numberOfIncorrectCodes < 5 then
    let s1 := if inp.aButton && inp.bButton && inp.cButton && inp.dButton && !inp.enterButton
              then { s with incorrectCodeLed := false } else s
    if inp.enterButton && !s1.incorrectCodeLed && s1.alarmState then
      let s2 := { s1 with buttonsPressed := pressedOf inp }
      if areEqual s2.codeSequence s2.buttonsPressed then
        { s2 with alarmState := false, numberOfIncorrectCodes := 0 }
      else
        { s2 with incorrectCodeLed := true,
                  numberOfIncorrectCodes := s2.numberOfIncorrectCodes + 1 }
    else s1
  else
    { s with systemBlockedLed := true }

/-- One iteration of the '4' (enter code) sub-protocol loop body:
read one byte, echo `'*'`, and compare it against `codeSequence[i]` —
`'1'` must match digit 1, `'0'` must match digit 0, and any other byte
sets `incorrectCode = true`.  The pair carries
(`incorrectCode`, echoes written so far). -/
def enterStep (code : Fin 4 → ℤ) (digits : Fin 4 → Char) (i : Fin 4)
    (st : Bool × List Char) : Bool × List Char :=
  let c := digits i
  (if c = '1' then st.1 || decide (code i ≠ 1)
   else if c = '0' then st.1 || decide (code i ≠ 0)
   else true,
   st.2 ++ ['*'])

/-- The '4' sub-protocol loop (`for buttonBeingCompared = 0..3`), unrolled;
starts from `incorrectCode = false` and no echoes. -/
def enterCodeLoop (code : Fin 4 → ℤ) (digits : Fin 4 → Char) : Bool × List Char :=
  enterStep code digits 3 (enterStep code digits 2
    (enterStep code digits 1 (enterStep code digits 0 (false, []))))

/-- One iteration of the '5' (new code) sub-protocol loop body: read one
byte, echo `'*'`, and overwrite `codeSequence[i]` with 1 for `'1'`, 0 for
`'0'`, leaving it unchanged for any other byte. -/
def newCodeStep (digits : Fin 4 → Char) (i : Fin 4)
    (st : (Fin 4 → ℤ) × List Char) : (Fin 4 → ℤ) × List Char :=
  let c := digits i
  (if c = '1' then Function.update st.1 i 1
   else if c = '0' then Function.update st.1 i 0
   else st.1,
   st.2 ++ ['*'])

/-- The '5' sub-protocol loop, unrolled. -/
def newCodeLoop (code : Fin 4 → ℤ) (digits : Fin 4 → Char) : (Fin 4 → ℤ) × List Char :=
  newCodeStep digits 3 (newCodeStep digits 2
    (newCodeStep digits 1 (newCodeStep digits 0 (code, []))))

/-- `void uartTask()` of main.cpp, restricted to its state effects (the
informational writes for '1','2','3','c','C','f','F' and the help listing
change no state).  Case '4' runs the enter-code sub-protocol and on a
correct code turns the alarm off, clears the incorrect-code LED and resets
the counter, while on an incorrect code it lights the LED and increments
the counter; case '5' overwrites the secret code; case 'p'/'P' stores the
potentiometer reading. -/
def uartTask (s : SysState) (inp : Inputs) : SysState :=
  match inp.serial with
  | none => s
  | some (c, digits) =>
    if c = '4' then
      let incorrect := (enterCodeLoop s.codeSequence digits).1
      if incorrect = false then
        { s with incorrectCode := false, alarmState := false,
                 incorrectCodeLed := false, numberOfIncorrectCodes := 0 }
      else
        { s with incorrectCode := true, incorrectCodeLed := true,
                 numberOfIncorrectCodes := s.numberOfIncorrectCodes + 1 }
    else if c = '5' then
      { s with codeSequence := (newCodeLoop s.codeSequence digits).1 }
    else if c = 'p' || c = 'P' then
      { s with potentiometerReading := inp.potRead }
    else s

/-- One iteration of the `while (true)` loop in `main()`. -/
def mainTick (s : SysState) (inp : Inputs) : SysState :=
  uartTask (alarmDeactivationUpdate (alarmActivationUpdate s inp) inp) inp

/-- Iterated main-loop execution over a list of per-tick inputs. -/
def runLoop (s : SysState) (inps : List Inputs) : SysState :=
  inps.foldl mainTick s

/-- The state after global initialization, `inputsInit()` and `outputsInit()`:
all globals at their initializers, secret code `{1,1,0,0}`, LEDs off,
siren pin tri-stated. -/
def initialState : SysState where
  alarmState := false
  incorrectCode := false
  overTempDetector := false
  numberOfIncorrectCodes := 0
  codeSequence := ![1, 1, 0, 0]
  buttonsPressed := ![0, 0, 0, 0]
  accumulatedTimeAlarm := 0
  gasDetectorState := false
  overTempDetectorState := false
  potentiometerReading := 0
  lm35ReadingsArray := fun _ => 0
  lm35SampleIndex := 0
  lm35TempC := 0
  alarmLed := false
  incorrectCodeLed := false
  systemBlockedLed := false
  sirenOutput := false

/-! ## Frame lemmas for the three tasks -/

theorem causeStep_counter (s : SysState) (inp : Inputs) :
    (causeStep s inp).numberOfIncorrectCodes = s.numberOfIncorrectCodes := by
  simp only [causeStep]; repeat' split
  all_goals rfl

theorem causeStep_code (s : SysState) (inp : Inputs) :
    (causeStep s inp).codeSequence = s.codeSequence := by
  simp only [causeStep]; repeat' split
  all_goals rfl

theorem causeStep_led (s : SysState) (inp : Inputs) :
    (causeStep s inp).incorrectCodeLed = s.incorrectCodeLed := by
  simp only [causeStep]; repeat' split
  all_goals rfl

theorem causeStep_blocked (s : SysState) (inp : Inputs) :
    (causeStep s inp).systemBlockedLed = s.systemBlockedLed := by
  simp only [causeStep]; repeat' split
  all_goals rfl

theorem causeStep_acc (s : SysState) (inp : Inputs) :
    (causeStep s inp).accumulatedTimeAlarm = s.accumulatedTimeAlarm := by
  simp only [causeStep]; repeat' split
  all_goals rfl

theorem causeStep_alarm_mono (s : SysState) (inp : Inputs) (h : s.alarmState = true) :
    (causeStep s inp).alarmState = true := by
  simp only [causeStep]; repeat' split
  all_goals simp [h]

theorem causeStep_quiet (s : SysState) (inp : Inputs) (hg : inp.mq2 = true)
    (ht : s.overTempDetector = false) (hb : inp.alarmTestButton = false) :
    causeStep s inp = s := by
  simp [causeStep, hg, ht, hb]

theorem blinkUpdate_alarm (s : SysState) :
    (blinkUpdate s).alarmState = s.alarmState := by
  simp only [blinkUpdate]; repeat' split
  all_goals rfl

theorem blinkUpdate_counter (s : SysState) :
    (blinkUpdate s).numberOfIncorrectCodes = s.numberOfIncorrectCodes := by
  simp only [blinkUpdate]; repeat' split
  all_goals rfl

theorem blinkUpdate_code (s : SysState) :
    (blinkUpdate s).codeSequence = s.codeSequence := by
  simp only [blinkUpdate]; repeat' split
  all_goals rfl

theorem blinkUpdate_led (s : SysState) :
    (blinkUpdate s).incorrectCodeLed = s.incorrectCodeLed := by
  simp only [blinkUpdate]; repeat' split
  all_goals rfl

theorem blinkUpdate_blocked (s : SysState) :
    (blinkUpdate s).systemBlockedLed = s.systemBlockedLed := by
  simp only [blinkUpdate]; repeat' split
  all_goals rfl

theorem sensorStep_frame (s : SysState) (inp : Inputs) :
    (sensorStep s inp).alarmState = s.alarmState ∧
    (sensorStep s inp).numberOfIncorrectCodes = s.numberOfIncorrectCodes ∧
    (sensorStep s inp).codeSequence = s.codeSequence ∧
    (sensorStep s inp).incorrectCodeLed = s.incorrectCodeLed ∧
    (sensorStep s inp).systemBlockedLed = s.systemBlockedLed ∧
    (sensorStep s inp).accumulatedTimeAlarm = s.accumulatedTimeAlarm ∧
    (sensorStep s inp).gasDetectorState = s.gasDetectorState ∧
    (sensorStep s inp).overTempDetectorState = s.overTempDetectorState ∧
    (sensorStep s inp).alarmLed = s.alarmLed := by
  exact ⟨rfl, rfl, rfl, rfl, rfl, rfl, rfl, rfl, rfl⟩

theorem activation_counter (s : SysState) (inp : Inputs) :
    (alarmActivationUpdate s inp).numberOfIncorrectCodes = s.numberOfIncorrectCodes := by
  simp [alarmActivationUpdate, blinkUpdate_counter, causeStep_counter,
    (sensorStep_frame s inp).2.1]

theorem activation_code (s : SysState) (inp : Inputs) :
    (alarmActivationUpdate s inp).codeSequence = s.codeSequence := by
  simp [alarmActivationUpdate, blinkUpdate_code, causeStep_code,
    (sensorStep_frame s inp).2.2.1]

theorem activation_led (s : SysState) (inp : Inputs) :
    (alarmActivationUpdate s inp).incorrectCodeLed = s.incorrectCodeLed := by
  simp [alarmActivationUpdate, blinkUpdate_led, causeStep_led,
    (sensorStep_frame s inp).2.2.2.1]

theorem activation_blocked (s : SysState) (inp : Inputs) :
    (alarmActivationUpdate s inp).systemBlockedLed = s.systemBlockedLed := by
  simp [alarmActivationUpdate, blinkUpdate_blocked, causeStep_blocked,
    (sensorStep_frame s inp).2.2.2.2.1]

theorem activation_alarm_mono (s : SysState) (inp : Inputs) (h : s.alarmState = true) :
    (alarmActivationUpdate s inp).alarmState = true := by
  rw [alarmActivationUpdate, blinkUpdate_alarm]
  exact causeStep_alarm_mono _ _ ((sensorStep_frame s inp).1.trans h)

/-! ## Characterizations of `alarmDeactivationUpdate` and `uartTask` -/

theorem deactivation_acc (s : SysState) (inp : Inputs) :
    (alarmDeactivationUpdate s inp).accumulatedTimeAlarm = s.accumulatedTimeAlarm := by
  simp only [alarmDeactivationUpdate]; repeat' split
  all_goals rfl

theorem deactivation_code (s : SysState) (inp : Inputs) :
    (alarmDeactivationUpdate s inp).codeSequence = s.codeSequence := by
  simp only [alarmDeactivationUpdate]; repeat' split
  all_goals rfl

theorem deactivation_blocked_mono (s : SysState) (inp : Inputs)
    (h : s.systemBlockedLed = true) :
    (alarmDeactivationUpdate s inp).systemBlockedLed = true := by
  simp only [alarmDeactivationUpdate]; repeat' split
  all_goals simp [h]

theorem deactivation_alarm_iff (s : SysState) (inp : Inputs) :
    (alarmDeactivationUpdate s inp).alarmState = false ↔
      (s.alarmState = false ∨
       (s.numberOfIncorrectCodes < 5 ∧ inp.enterButton = true ∧
        s.incorrectCodeLed = false ∧
        areEqual s.codeSequence (pressedOf inp) = true)) := by
  simp only [alarmDeactivationUpdate]
  repeat' split
  all_goals simp_all

theorem uartTask_acc (s : SysState) (inp : Inputs) :
    (uartTask s inp).accumulatedTimeAlarm = s.accumulatedTimeAlarm := by
  simp only [uartTask]
  cases inp.serial with
  | none => rfl
  | some cd => repeat' split
               all_goals rfl

theorem uartTask_blocked (s : SysState) (inp : Inputs) :
    (uartTask s inp).systemBlockedLed = s.systemBlockedLed := by
  simp only [uartTask]
  cases inp.serial with
  | none => rfl
  | some cd => repeat' split
               all_goals rfl

theorem uartTask_alarm_iff (s : SysState) (inp : Inputs) :
    (uartTask s inp).alarmState = false ↔
      (s.alarmState = false ∨
       ∃ d, inp.serial = some ('4', d) ∧
            (enterCodeLoop s.codeSequence d).1 = false) := by
  simp only [uartTask]
  cases hser : inp.serial with
  | none => simp
  | some cd =>
    obtain ⟨c, d⟩ := cd
    by_cases h4 : c = '4'
    · subst h4
      by_cases hloop : (enterCodeLoop s.codeSequence d).1 = false
      · simp only [if_pos rfl, hloop, if_pos rfl]
        constructor
        · intro _; exact Or.inr ⟨d, rfl, hloop⟩
        · intro _; rfl
      · simp only [if_pos rfl, if_neg hloop]
        constructor
        · intro h; exact Or.inl h
        · rintro (h | ⟨d', hd', hl'⟩)
          · exact h
          · obtain ⟨-, rfl⟩ : '4' = '4' ∧ d = d' := by
              simpa using hd'
            exact absurd hl' hloop
    · have hne : ∀ d' : Fin 4 → Char, ¬ ((c, d) = (('4' : Char), d')) := by
        intro d' hcd
        exact h4 (congrArg Prod.fst hcd)
      simp only [if_neg h4]
      repeat' split
      all_goals simp_all

theorem uartTask_serial4 (s : SysState) (inp : Inputs) (d : Fin 4 → Char)
    (hser : inp.serial = some ('4', d)) :
    uartTask s inp =
      (if (enterCodeLoop s.codeSequence d).1 = false then
        { s with incorrectCode := false, alarmState := false,
                 incorrectCodeLed := false, numberOfIncorrectCodes := 0 }
      else
        { s with incorrectCode := true, incorrectCodeLed := true,
                 numberOfIncorrectCodes := s.numberOfIncorrectCodes + 1 }) := by
  simp [uartTask, hser]

/-! ## Lemmas about the code-comparison loops -/

/-- The per-position mismatch test the '4' sub-protocol applies: byte `'1'`
mismatches unless the digit is 1, byte `'0'` mismatches unless the digit
is 0, any other byte always mismatches. -/
def mismatchAt (code : Fin 4 → ℤ) (digits : Fin 4 → Char) (i : Fin 4) : Bool :=
  if digits i = '1' then decide (code i ≠ 1)
  else if digits i = '0' then decide (code i ≠ 0)
  else true

/-- The digit value a serial byte stands for (`'1'` ↦ 1, anything else ↦ 0);
used only to state digit-wise equality for valid bytes. -/
def charDigitVal (c : Char) : ℤ := if c = '1' then 1 else 0

theorem enterStep_fst (code : Fin 4 → ℤ) (digits : Fin 4 → Char) (i : Fin 4)
    (st : Bool × List Char) :
    (enterStep code digits i st).1 = (st.1 || mismatchAt code digits i) := by
  simp only [enterStep, mismatchAt]
  repeat' split
  all_goals simp

theorem enterCodeLoop_fst (code : Fin 4 → ℤ) (digits : Fin 4 → Char) :
    (enterCodeLoop code digits).1 =
      (mismatchAt code digits 0 || mismatchAt code digits 1 ||
       mismatchAt code digits 2 || mismatchAt code digits 3) := by
  simp [enterCodeLoop, enterStep_fst, Bool.or_assoc]

theorem enterCodeLoop_snd (code : Fin 4 → ℤ) (digits : Fin 4 → Char) :
    (enterCodeLoop code digits).2 = ['*', '*', '*', '*'] := rfl

theorem enterCodeLoop_false_iff (code : Fin 4 → ℤ) (digits : Fin 4 → Char) :
    (enterCodeLoop code digits).1 = false ↔
      ∀ i, mismatchAt code digits i = false := by
  rw [enterCodeLoop_fst]
  simp only [Bool.or_eq_false_iff]
  constructor
  · rintro ⟨⟨⟨h0, h1⟩, h2⟩, h3⟩ i
    fin_cases i <;> assumption
  · intro h
    exact ⟨⟨⟨h 0, h 1⟩, h 2⟩, h 3⟩

theorem mismatchAt_false_iff (code : Fin 4 → ℤ) (digits : Fin 4 → Char) (i : Fin 4)
    (hv : digits i = '0' ∨ digits i = '1') :
    (mismatchAt code digits i = false ↔ code i = charDigitVal (digits i)) := by
  rcases hv with h | h <;> simp [mismatchAt, charDigitVal, h]

theorem newCodeStep_fst_apply (digits : Fin 4 → Char) (i j : Fin 4)
    (st : (Fin 4 → ℤ) × List Char) :
    (newCodeStep digits i st).1 j =
      (if j = i then
        (if digits i = '1' then 1 else if digits i = '0' then 0 else st.1 j)
      else st.1 j) := by
  simp only [newCodeStep, Function.update_apply]
  repeat' split
  all_goals simp_all [Function.update_apply]

theorem newCodeLoop_fst_apply (code : Fin 4 → ℤ) (digits : Fin 4 → Char) (i : Fin 4) :
    (newCodeLoop code digits).1 i =
      (if digits i = '1' then 1 else if digits i = '0' then 0 else code i) := by
  fin_cases i <;>
    simp +decide [newCodeLoop, newCodeStep_fst_apply]

theorem newCodeLoop_snd (code : Fin 4 → ℤ) (digits : Fin 4 → Char) :
    (newCodeLoop code digits).2 = ['*', '*', '*', '*'] := rfl

theorem areEqual_iff (code pressed : Fin 4 → ℤ) :
    areEqual code pressed = true ↔ ∀ i, code i = pressed i := by
  unfold areEqual
  constructor
  · intro h i
    by_contra hne
    fin_cases i <;> simp_all
  · intro h
    simp [h 0, h 1, h 2, h 3]

/-! ## The summation loop versus the arithmetic mean -/

theorem foldl_add_eq_sum (arr : Fin 100 → ℚ) (l : List (Fin 100)) (a : ℚ) :
    l.foldl (fun acc j => acc + arr j) a = a + (l.map arr).sum := by
  induction l generalizing a with
  | nil => simp
  | cons x xs ih => simp [ih, add_assoc]

theorem readingsSum_eq (arr : Fin 100 → ℚ) :
    readingsSum arr = Finset.univ.sum arr := by
  rw [readingsSum, foldl_add_eq_sum, zero_add, Fin.sum_univ_def]

/-! ## More frame lemmas and quiet-input reductions -/

theorem causeStep_lm35 (s : SysState) (inp : Inputs) :
    (causeStep s inp).lm35ReadingsArray = s.lm35ReadingsArray ∧
    (causeStep s inp).lm35SampleIndex = s.lm35SampleIndex ∧
    (causeStep s inp).lm35TempC = s.lm35TempC := by
  simp only [causeStep]; repeat' split
  all_goals exact ⟨rfl, rfl, rfl⟩

theorem blinkUpdate_lm35 (s : SysState) :
    (blinkUpdate s).lm35ReadingsArray = s.lm35ReadingsArray ∧
    (blinkUpdate s).lm35SampleIndex = s.lm35SampleIndex ∧
    (blinkUpdate s).lm35TempC = s.lm35TempC := by
  simp only [blinkUpdate]; repeat' split
  all_goals exact ⟨rfl, rfl, rfl⟩

theorem sensorStep_overTemp_false (s : SysState) (inp : Inputs)
    (htemp : ¬ (computedTempC (bufWrite s.lm35ReadingsArray s.lm35SampleIndex inp.lm35Read)
                  > OVER_TEMP_LEVEL)) :
    (sensorStep s inp).overTempDetector = false := by
  simp [sensorStep, htemp]

theorem activation_quiet (s : SysState) (inp : Inputs) (hq : inp.mq2 = true)
    (htest : inp.alarmTestButton = false)
    (htemp : ¬ (computedTempC (bufWrite s.lm35ReadingsArray s.lm35SampleIndex inp.lm35Read)
                  > OVER_TEMP_LEVEL)) :
    alarmActivationUpdate s inp = blinkUpdate (sensorStep s inp) := by
  unfold alarmActivationUpdate
  rw [causeStep_quiet _ _ hq (sensorStep_overTemp_false s inp htemp) htest]

theorem mainTick_blocked_mono (s : SysState) (inp : Inputs)
    (h : s.systemBlockedLed = true) :
    (mainTick s inp).systemBlockedLed = true := by
  unfold mainTick
  rw [uartTask_blocked]
  exact deactivation_blocked_mono _ _ ((activation_blocked s inp).trans h)

theorem deactivation_alarm_true (s : SysState) (inp : Inputs)
    (hA : s.alarmState = true) (henter : inp.enterButton = false) :
    (alarmDeactivationUpdate s inp).alarmState = true := by
  cases hb : (alarmDeactivationUpdate s inp).alarmState with
  | true => rfl
  | false =>
    rcases (deactivation_alarm_iff s inp).mp hb with h | ⟨-, he, -, -⟩
    · rw [hA] at h; cases h
    · rw [henter] at he; cases he

theorem uartTask_no_serial (s : SysState) (inp : Inputs) (h : inp.serial = none) :
    uartTask s inp = s := by
  simp [uartTask, h]

theorem mainTick_alarm_quiet (s : SysState) (inp : Inputs) (hA : s.alarmState = true)
    (henter : inp.enterButton = false) (hser : inp.serial = none) :
    (mainTick s inp).alarmState = true := by
  unfold mainTick
  rw [uartTask_no_serial _ _ hser]
  exact deactivation_alarm_true _ _ (activation_alarm_mono s inp hA) henter

theorem computedTempC_zero (arr : Fin 100 → ℚ) (h : ∀ j, arr j = 0) :
    computedTempC arr = 0 := by
  have hs : readingsSum arr = 0 := by
    rw [readingsSum_eq]
    exact Finset.sum_eq_zero (fun j _ => h j)
  rw [computedTempC, hs]
  norm_num [analogReadingScaledWithTheLM35Formula]

theorem no_overTemp_of_zero (s : SysState) (inp : Inputs)
    (hb : ∀ j, s.lm35ReadingsArray j = 0) (hr : inp.lm35Read = 0) :
    ¬ (computedTempC (bufWrite s.lm35ReadingsArray s.lm35SampleIndex inp.lm35Read)
        > OVER_TEMP_LEVEL) := by
  rw [computedTempC_zero]
  · norm_num [OVER_TEMP_LEVEL]
  · intro j
    simp [bufWrite, hb, hr]

/-! ## Deactivation events (for stating the sticky-activation claim) -/

/-- A successful keypad code entry in this tick: counter below threshold,
enter pressed, incorrect-code LED off, and the four keypad reads equal to
the secret code.  (The main-loop tasks before `alarmDeactivationUpdate`
change none of these fields, so the event is stated on the pre-tick state.) -/
def keypadMatchEvent (s : SysState) (inp : Inputs) : Prop :=
  s.numberOfIncorrectCodes < 5 ∧ inp.enterButton = true ∧
  s.incorrectCodeLed = false ∧
  areEqual s.codeSequence (pressedOf inp) = true

/-- A successful serial '4' code entry in this tick: the UART delivered
command '4' with four bytes that the enter-code loop accepts against the
secret code. -/
def serialMatchEvent (s : SysState) (inp : Inputs) : Prop :=
  ∃ d, inp.serial = some ('4', d) ∧ (enterCodeLoop s.codeSequence d).1 = false

/-! ## Concrete states and inputs used in counterexamples and witnesses -/

/-- A tick with nothing pressed, no gas, a zero LM35 read, no serial byte. -/
def quietInput : Inputs where
  mq2 := true
  alarmTestButton := false
  aButton := false
  bButton := false
  cButton := false
  dButton := false
  enterButton := false
  lm35Read := 0
  potRead := 0
  serial := none

/-- A quiet tick except that the serial port delivers '4' followed by the
bytes "1100" (the default secret code). -/
def serialGoodInput : Inputs :=
  { quietInput with serial := some ('4', !['1', '1', '0', '0']) }

/-- A quiet tick except that the serial port delivers '4' followed by the
bytes "0000" (a wrong code). -/
def serialBadInput : Inputs :=
  { quietInput with serial := some ('4', !['0', '0', '0', '0']) }

/-- A quiet tick except that the gas sensor reads LOW (gas present). -/
def gasInput : Inputs :=
  { quietInput with mq2 := false }

/-- A quiet tick except that keypad buttons A and B and the enter button are
pressed — the keypad entry of the default secret code {1,1,0,0}. -/
def enterCorrectInput : Inputs :=
  { quietInput with aButton := true, bButton := true, enterButton := true }

/-- The initial state with the lockout threshold already reached and the
alarm active. -/
def blockedState : SysState :=
  { initialState with numberOfIncorrectCodes := 5, alarmState := true }

/-- The initial state with the alarm active and the incorrect-code LED
latched on after a failed attempt. -/
def latchState : SysState :=
  { initialState with alarmState := true, incorrectCodeLed := true,
                      numberOfIncorrectCodes := 1 }

/-- The initial state with the alarm active for the gas cause and 50 ms
already accumulated toward the next LED toggle. -/
def activeAccState : SysState :=
  { initialState with alarmState := true, gasDetectorState := true,
                      accumulatedTimeAlarm := 50 }

/-- The initial state with the system-blocked LED already lit, the counter
at the threshold and the alarm active. -/
def blockedLitState : SysState :=
  { blockedState with systemBlockedLed := true }

/-- The initial state with two failed attempts recorded (alarm inactive). -/
def counter2State : SysState :=
  { initialState with numberOfIncorrectCodes := 2 }

/-! ## Sequence lemma for sticky activation -/

theorem runLoop_alarm_quiet (s : SysState) (inps : List Inputs)
    (hA : s.alarmState = true)
    (hq : ∀ j ∈ inps, j.enterButton = false ∧ j.serial = none) :
    (runLoop s inps).alarmState = true := by
  induction inps generalizing s with
  | nil => exact hA
  | cons j rest ih =>
    exact ih (mainTick s j)
      (mainTick_alarm_quiet s j hA (hq j (by simp)).1 (hq j (by simp)).2)
      (fun k hk => hq k (by simp [hk]))

/-! ## Claim C10 -/

/-- C10: the system-blocked indicator, once asserted, is never cleared for
the remainder of the run: every main-loop tick preserves a lit
`systemBlockedLed` (no code path turns it off), so any sequence of further
ticks — including ones whose serial '4' match resets the counter to 0 —
keeps it lit. -/
theorem systemBlocked_persistent (s : SysState) (inps : List Inputs)
    (h : s.systemBlockedLed = true) :
    (runLoop s inps).systemBlockedLed = true := by
  induction inps generalizing s with
  | nil => exact h
  | cons inp rest ih => exact ih _ (mainTick_blocked_mono s inp h)

/-- C10 witness: a concrete blocked state stays blocked across a tick whose
serial '4' match resets the counter and a further quiet tick. -/
theorem systemBlocked_persistent_witness :
    blockedLitState.systemBlockedLed = true ∧
    (runLoop blockedLitState [serialGoodInput, quietInput]).systemBlockedLed = true :=
  ⟨rfl, systemBlocked_persistent _ _ rfl⟩

/-! ## Claim C2 -/

/-- C2: sticky activation: an Active alarm stays Active through
`alarmActivationUpdate` whatever the sensor inputs; if a full main-loop tick
ends with the alarm Inactive, a successful keypad code match or a successful
serial '4' code match occurred in that tick; and the alarm stays Active over
any sequence of ticks without code-entry attempts, whatever their sensor
readings. -/
theorem alarm_sticky (s : SysState) (inp : Inputs) (inps : List Inputs)
    (hA : s.alarmState = true) :
    (alarmActivationUpdate s inp).alarmState = true ∧
    ((mainTick s inp).alarmState = false →
      keypadMatchEvent s inp ∨ serialMatchEvent s inp) ∧
    ((∀ j ∈ inps, j.enterButton = false ∧ j.serial = none) →
      (runLoop s inps).alarmState = true) := by
  refine ⟨activation_alarm_mono s inp hA, ?_, fun hq => runLoop_alarm_quiet s inps hA hq⟩
  intro hoff
  unfold mainTick at hoff
  rcases (uartTask_alarm_iff _ _).mp hoff with h2 | ⟨d, hd, hl⟩
  · rcases (deactivation_alarm_iff _ _).mp h2 with h1 | ⟨hc, he, hled, heq⟩
    · rw [activation_alarm_mono s inp hA] at h1; cases h1
    · left
      rw [activation_counter] at hc
      rw [activation_led] at hled
      rw [activation_code] at heq
      exact ⟨hc, he, hled, heq⟩
  · right
    rw [deactivation_code, activation_code] at hl
    exact ⟨d, hd, hl⟩

/-- C2 witness: instantiated at a concrete Active state, a quiet tick and a
one-tick quiet sequence. -/
theorem alarm_sticky_witness :
    activeAccState.alarmState = true ∧
    ((alarmActivationUpdate activeAccState quietInput).alarmState = true ∧
     ((mainTick activeAccState quietInput).alarmState = false →
       keypadMatchEvent activeAccState quietInput ∨
       serialMatchEvent activeAccState quietInput) ∧
     ((∀ j ∈ [quietInput], j.enterButton = false ∧ j.serial = none) →
       (runLoop activeAccState [quietInput]).alarmState = true)) :=
  ⟨rfl, alarm_sticky activeAccState quietInput [quietInput] rfl⟩

/-! ## Claim C9 -/

/-- C9: the serial '4' evaluation runs regardless of the alarm state: with
the alarm Inactive, a correct serial code still resets the counter to 0 and
clears the incorrect-code LED, and a wrong one still increments the counter
and lights the LED; the keypad path, by contrast, performs no evaluation at
all while the alarm is Inactive (counter, alarm and the stored button reads
are untouched for every keypad input). -/
theorem serial_eval_regardless_of_alarm (s : SysState) (d : Fin 4 → Char)
    (inp : Inputs) (hser : inp.serial = some ('4', d)) (hA : s.alarmState = false) :
    ((enterCodeLoop s.codeSequence d).1 = false →
      (uartTask s inp).numberOfIncorrectCodes = 0 ∧
      (uartTask s inp).incorrectCodeLed = false) ∧
    ((enterCodeLoop s.codeSequence d).1 = true →
      (uartTask s inp).numberOfIncorrectCodes = s.numberOfIncorrectCodes + 1 ∧
      (uartTask s inp).incorrectCodeLed = true) ∧
    (∀ j : Inputs,
      (alarmDeactivationUpdate s j).numberOfIncorrectCodes = s.numberOfIncorrectCodes ∧
      (alarmDeactivationUpdate s j).alarmState = false ∧
      (alarmDeactivationUpdate s j).buttonsPressed = s.buttonsPressed) := by
  refine ⟨?_, ?_, ?_⟩
  · intro h
    rw [uartTask_serial4 s inp d hser, if_pos h]
    exact ⟨rfl, rfl⟩
  · intro h
    rw [uartTask_serial4 s inp d hser, if_neg (by simp [h])]
    exact ⟨rfl, rfl⟩
  · intro j
    simp only [alarmDeactivationUpdate]
    repeat' split
    all_goals simp_all

/-- C9 witness: the alarm is off yet a correct serial code resets a nonzero
counter, and a wrong one increments it. -/
theorem serial_eval_regardless_of_alarm_witness :
    counter2State.alarmState = false ∧
    serialGoodInput.serial = some ('4', !['1', '1', '0', '0']) ∧
    (((enterCodeLoop counter2State.codeSequence !['1', '1', '0', '0']).1 = false →
      (uartTask counter2State serialGoodInput).numberOfIncorrectCodes = 0 ∧
      (uartTask counter2State serialGoodInput).incorrectCodeLed = false) ∧
     ((enterCodeLoop counter2State.codeSequence !['1', '1', '0', '0']).1 = true →
      (uartTask counter2State serialGoodInput).numberOfIncorrectCodes =
        counter2State.numberOfIncorrectCodes + 1 ∧
      (uartTask counter2State serialGoodInput).incorrectCodeLed = true) ∧
     (∀ j : Inputs,
      (alarmDeactivationUpdate counter2State j).numberOfIncorrectCodes =
        counter2State.numberOfIncorrectCodes ∧
      (alarmDeactivationUpdate counter2State j).alarmState = false ∧
      (alarmDeactivationUpdate counter2State j).buttonsPressed =
        counter2State.buttonsPressed)) :=
  ⟨rfl, rfl, serial_eval_regardless_of_alarm _ _ _ rfl rfl⟩

/-! ## Claim C1 -/

/-- C1 counterexample: with the counter already at the threshold 5, a serial
'4' entry is still evaluated — the correct code "1100" resets the counter to
0 and deactivates the alarm, and a 6th wrong attempt "0000" is also
evaluated, pushing the counter to 6 and lighting the incorrect-code LED —
contradicting the claim that above the threshold no serial entry is
evaluated and none can reset the counter or deactivate the alarm. -/
theorem blocked_serial_counterexample :
    blockedState.numberOfIncorrectCodes = 5 ∧
    blockedState.alarmState = true ∧
    (uartTask blockedState serialGoodInput).numberOfIncorrectCodes = 0 ∧
    (uartTask blockedState serialGoodInput).alarmState = false ∧
    (uartTask blockedState serialBadInput).numberOfIncorrectCodes = 6 ∧
    (uartTask blockedState serialBadInput).incorrectCodeLed = true := by
  refine ⟨rfl, rfl, ?_, ?_, ?_, ?_⟩ <;> decide

/-- C1 amended: once the counter has reached the threshold 5, the KEYPAD
path is terminally blocked — `alarmDeactivationUpdate` performs no
evaluation, changing nothing but asserting the system-blocked indicator —
but the serial '4' path is NOT blocked: it still evaluates every entry,
resetting the counter to 0 and deactivating the alarm on a match and
incrementing the counter on a mismatch. -/
theorem blocked_keypad_only (s : SysState) (inp : Inputs) (d : Fin 4 → Char)
    (h5 : 5 ≤ s.numberOfIncorrectCodes) :
    alarmDeactivationUpdate s inp = { s with systemBlockedLed := true } ∧
    (inp.serial = some ('4', d) →
      (uartTask s inp).numberOfIncorrectCodes =
        (if (enterCodeLoop s.codeSequence d).1 = false then 0
         else s.numberOfIncorrectCodes + 1) ∧
      ((enterCodeLoop s.codeSequence d).1 = false →
        (uartTask s inp).alarmState = false)) := by
  constructor
  · unfold alarmDeactivationUpdate
    rw [if_neg (Nat.not_lt.mpr h5)]
  · intro hser
    rw [uartTask_serial4 s inp d hser]
    constructor
    · split <;> rfl
    · intro h
      rw [if_pos h]

/-- C1 witness: the amended statement instantiated at the concrete blocked
state and a wrong serial entry. -/
theorem blocked_keypad_only_witness :
    5 ≤ blockedState.numberOfIncorrectCodes ∧
    (alarmDeactivationUpdate blockedState serialBadInput =
       { blockedState with systemBlockedLed := true } ∧
     (serialBadInput.serial = some ('4', !['0', '0', '0', '0']) →
       (uartTask blockedState serialBadInput).numberOfIncorrectCodes =
         (if (enterCodeLoop blockedState.codeSequence !['0', '0', '0', '0']).1 = false
          then 0 else blockedState.numberOfIncorrectCodes + 1) ∧
       ((enterCodeLoop blockedState.codeSequence !['0', '0', '0', '0']).1 = false →
         (uartTask blockedState serialBadInput).alarmState = false))) :=
  ⟨by decide, blocked_keypad_only blockedState serialBadInput _ (by decide)⟩

/-! ## Claim C3 -/

/-- A quiet tick except that all four keypad buttons are held pressed
(enter released) — the source's condition for clearing the incorrect-code
LED. -/
def allPressedInput : Inputs :=
  { quietInput with aButton := true, bButton := true, cButton := true, dButton := true }

/-- C3 counterexample: with the incorrect-code LED latched on, a tick in
which all four keypad buttons are RELEASED and the enter trigger is
released does NOT clear the indicator (the source requires the four buttons
to be PRESSED with enter released), refuting the claimed clearing
condition. -/
theorem keypad_latch_counterexample :
    latchState.incorrectCodeLed = true ∧
    quietInput.aButton = false ∧ quietInput.bButton = false ∧
    quietInput.cButton = false ∧ quietInput.dButton = false ∧
    quietInput.enterButton = false ∧
    (alarmDeactivationUpdate latchState quietInput).incorrectCodeLed = true := by
  refine ⟨rfl, rfl, rfl, rfl, rfl, rfl, ?_⟩
  decide

/-- C3 amended: once the incorrect-code LED is set (and the lock is not
blocked), no keypad evaluation occurs on any subsequent tick — counter,
alarm state and stored button reads are untouched — until a tick in which
all 4 keypad buttons are PRESSED and the enter trigger is released
simultaneously, which is exactly when the indicator is cleared (re-enabling
evaluation). -/
theorem keypad_latch_gate (s : SysState) (inp : Inputs)
    (hled : s.incorrectCodeLed = true) (h5 : s.numberOfIncorrectCodes < 5) :
    (alarmDeactivationUpdate s inp).numberOfIncorrectCodes = s.numberOfIncorrectCodes ∧
    (alarmDeactivationUpdate s inp).alarmState = s.alarmState ∧
    (alarmDeactivationUpdate s inp).buttonsPressed = s.buttonsPressed ∧
    ((alarmDeactivationUpdate s inp).incorrectCodeLed = false ↔
      (inp.aButton && inp.bButton && inp.cButton && inp.dButton && !inp.enterButton) = true) := by
  simp only [alarmDeactivationUpdate]
  rw [if_pos h5]
  by_cases hclear :
      (inp.aButton && inp.bButton && inp.cButton && inp.dButton && !inp.enterButton) = true
  · have henter : inp.enterButton = false := by
      have h' := hclear
      simp only [Bool.and_eq_true, Bool.not_eq_true'] at h'
      exact h'.2
    rw [if_pos hclear, if_neg (by simp [henter])]
    exact ⟨rfl, rfl, rfl, fun _ => hclear, fun _ => rfl⟩
  · rw [if_neg hclear, if_neg (by simp [hled])]
    refine ⟨rfl, rfl, rfl, ?_, ?_⟩
    · intro h
      rw [hled] at h
      cases h
    · intro h
      exact absurd h hclear

/-- C3 witness: the amended statement instantiated at the latched state and
the all-pressed clearing input. -/
theorem keypad_latch_gate_witness :
    latchState.incorrectCodeLed = true ∧
    latchState.numberOfIncorrectCodes < 5 ∧
    ((alarmDeactivationUpdate latchState allPressedInput).numberOfIncorrectCodes =
       latchState.numberOfIncorrectCodes ∧
     (alarmDeactivationUpdate latchState allPressedInput).alarmState =
       latchState.alarmState ∧
     (alarmDeactivationUpdate latchState allPressedInput).buttonsPressed =
       latchState.buttonsPressed ∧
     ((alarmDeactivationUpdate latchState allPressedInput).incorrectCodeLed = false ↔
       (allPressedInput.aButton && allPressedInput.bButton && allPressedInput.cButton &&
        allPressedInput.dButton && !allPressedInput.enterButton) = true)) :=
  ⟨rfl, by decide, keypad_latch_gate latchState allPressedInput rfl (by decide)⟩

/-! ## Claim C4 -/

/-- The state right after the keypad deactivation of `activeAccState` by the
correct code. -/
def deactState : SysState := alarmDeactivationUpdate activeAccState enterCorrectInput

/-- `deactState` after one quiet `alarmActivationUpdate` tick (alarm off). -/
def quietTickState : SysState := alarmActivationUpdate deactState quietInput

/-- `quietTickState` after an `alarmActivationUpdate` tick with gas detected
(re-entry to Active). -/
def reentryState : SysState := alarmActivationUpdate quietTickState gasInput

/-- C4 counterexample: deactivating the alarm with 50 ms accumulated leaves
the accumulator at 50 (it is never zeroed on an Active→Inactive transition);
the following quiet tick forces the LED off but still keeps the accumulator
at 50, and on re-entry to Active the cadence timing continues from 50
(reaching 60 after one tick) instead of starting from zero. -/
theorem blink_teardown_counterexample :
    activeAccState.alarmState = true ∧
    activeAccState.accumulatedTimeAlarm = 50 ∧
    deactState.alarmState = false ∧
    deactState.accumulatedTimeAlarm = 50 ∧
    quietTickState.alarmState = false ∧
    quietTickState.alarmLed = false ∧
    quietTickState.accumulatedTimeAlarm = 50 ∧
    reentryState.alarmState = true ∧
    reentryState.accumulatedTimeAlarm = 60 := by
  have hb : deactState.lm35ReadingsArray = (fun _ => (0 : ℚ)) := rfl
  have htq : ¬ (computedTempC
      (bufWrite deactState.lm35ReadingsArray deactState.lm35SampleIndex
        quietInput.lm35Read) > OVER_TEMP_LEVEL) :=
    no_overTemp_of_zero deactState quietInput (fun j => by rw [hb]) rfl
  have hq : quietTickState = blinkUpdate (sensorStep deactState quietInput) :=
    activation_quiet deactState quietInput rfl rfl htq
  have hsa : (sensorStep deactState quietInput).alarmState = false := by decide
  have hqt : quietTickState.alarmState = false ∧ quietTickState.alarmLed = false ∧
      quietTickState.accumulatedTimeAlarm = 50 ∧
      quietTickState.overTempDetectorState = false ∧
      quietTickState.lm35SampleIndex = 1 := by
    rw [hq]
    unfold blinkUpdate
    rw [if_neg (by simp [hsa])]
    exact ⟨hsa, rfl, by decide, rfl, by decide⟩
  have hbq : ∀ j, quietTickState.lm35ReadingsArray j = 0 := by
    intro j
    rw [hq, (blinkUpdate_lm35 _).1]
    show bufWrite deactState.lm35ReadingsArray deactState.lm35SampleIndex
        quietInput.lm35Read j = 0
    rw [hb]
    simp only [bufWrite]
    split <;> rfl
  have hre : reentryState =
      blinkUpdate (causeStep (sensorStep quietTickState gasInput) gasInput) := rfl
  have hot1 : (sensorStep quietTickState gasInput).overTempDetector = false :=
    sensorStep_overTemp_false quietTickState gasInput
      (no_overTemp_of_zero quietTickState gasInput hbq rfl)
  have hcs : causeStep (sensorStep quietTickState gasInput) gasInput =
      { sensorStep quietTickState gasInput with
          gasDetectorState := true, alarmState := true } := by
    have hot1' := hot1
    simp only [gasInput, quietInput] at hot1'
    simp [causeStep, gasInput, quietInput, hot1']
  have hs2ot : ({ sensorStep quietTickState gasInput with
      gasDetectorState := true, alarmState := true } : SysState).overTempDetectorState
      = false := hqt.2.2.2.1
  have hs2acc : ({ sensorStep quietTickState gasInput with
      gasDetectorState := true, alarmState := true } : SysState).accumulatedTimeAlarm
      = 50 := hqt.2.2.1
  refine ⟨rfl, rfl, by decide, by decide, hqt.1, hqt.2.1, hqt.2.2.1, ?_, ?_⟩
  · rw [hre, blinkUpdate_alarm, hcs]
  · rw [hre, hcs]
    unfold blinkUpdate
    rw [if_pos rfl]
    rw [hs2acc]
    simp [hs2ot, TIME_INCREMENT_MS, BLINKING_TIME_GAS_ALARM,
      BLINKING_TIME_GAS_AND_OVER_TEMP_ALARM]

/-- C4 amended: on an Active→Inactive transition the accumulated-ON-duration
counter is NOT zeroed — both deactivation paths preserve it — and the LED
phase is forced off on the next `alarmActivationUpdate` tick while the alarm
is Inactive, with the accumulator still retained there; consequently a
subsequent entry to Active continues cadence timing from the retained
accumulator value rather than from zero. -/
theorem blink_no_teardown (s : SysState) (inp : Inputs)
    (hq : inp.mq2 = true) (htest : inp.alarmTestButton = false)
    (htemp : ¬ (computedTempC
        (bufWrite s.lm35ReadingsArray s.lm35SampleIndex inp.lm35Read)
        > OVER_TEMP_LEVEL)) :
    (alarmDeactivationUpdate s inp).accumulatedTimeAlarm = s.accumulatedTimeAlarm ∧
    (uartTask s inp).accumulatedTimeAlarm = s.accumulatedTimeAlarm ∧
    (s.alarmState = false →
      (alarmActivationUpdate s inp).alarmLed = false ∧
      (alarmActivationUpdate s inp).accumulatedTimeAlarm = s.accumulatedTimeAlarm) := by
  refine ⟨deactivation_acc s inp, uartTask_acc s inp, fun hoff => ?_⟩
  rw [activation_quiet s inp hq htest htemp]
  have hst : (sensorStep s inp).alarmState = false := hoff
  unfold blinkUpdate
  rw [if_neg (by simp [hst])]
  exact ⟨rfl, rfl⟩

/-- The initial (inactive) state with 50 ms left in the blink accumulator. -/
def acc50State : SysState := { initialState with accumulatedTimeAlarm := 50 }

/-- C4 witness: the amended statement instantiated at a concrete inactive
state holding 50 ms in the accumulator, over a quiet tick. -/
theorem blink_no_teardown_witness :
    quietInput.mq2 = true ∧ quietInput.alarmTestButton = false ∧
    ¬ (computedTempC
        (bufWrite acc50State.lm35ReadingsArray acc50State.lm35SampleIndex
          quietInput.lm35Read) > OVER_TEMP_LEVEL) ∧
    ((alarmDeactivationUpdate acc50State quietInput).accumulatedTimeAlarm =
       acc50State.accumulatedTimeAlarm ∧
     (uartTask acc50State quietInput).accumulatedTimeAlarm =
       acc50State.accumulatedTimeAlarm ∧
     (acc50State.alarmState = false →
       (alarmActivationUpdate acc50State quietInput).alarmLed = false ∧
       (alarmActivationUpdate acc50State quietInput).accumulatedTimeAlarm =
         acc50State.accumulatedTimeAlarm)) :=
  ⟨rfl, rfl, no_overTemp_of_zero acc50State quietInput (fun _ => rfl) rfl,
   blink_no_teardown acc50State quietInput rfl rfl
     (no_overTemp_of_zero acc50State quietInput (fun _ => rfl) rfl)⟩

/-! ## Claim C5 -/

theorem blinkUpdate_cadence (s : SysState) (hA : s.alarmState = true) :
    (s.gasDetectorState = true → s.overTempDetectorState = true →
      ((s.accumulatedTimeAlarm + TIME_INCREMENT_MS ≥
          BLINKING_TIME_GAS_AND_OVER_TEMP_ALARM →
        (blinkUpdate s).accumulatedTimeAlarm = 0 ∧
        (blinkUpdate s).alarmLed = !s.alarmLed) ∧
       (s.accumulatedTimeAlarm + TIME_INCREMENT_MS <
          BLINKING_TIME_GAS_AND_OVER_TEMP_ALARM →
        (blinkUpdate s).accumulatedTimeAlarm =
          s.accumulatedTimeAlarm + TIME_INCREMENT_MS ∧
        (blinkUpdate s).alarmLed = s.alarmLed))) ∧
    (s.gasDetectorState = true → s.overTempDetectorState = false →
      ((s.accumulatedTimeAlarm + TIME_INCREMENT_MS ≥ BLINKING_TIME_GAS_ALARM →
        (blinkUpdate s).accumulatedTimeAlarm = 0 ∧
        (blinkUpdate s).alarmLed = !s.alarmLed) ∧
       (s.accumulatedTimeAlarm + TIME_INCREMENT_MS < BLINKING_TIME_GAS_ALARM →
        (blinkUpdate s).accumulatedTimeAlarm =
          s.accumulatedTimeAlarm + TIME_INCREMENT_MS ∧
        (blinkUpdate s).alarmLed = s.alarmLed))) ∧
    (s.gasDetectorState = false → s.overTempDetectorState = true →
      ((s.accumulatedTimeAlarm + TIME_INCREMENT_MS ≥ BLINKING_TIME_OVER_TEMP_ALARM →
        (blinkUpdate s).accumulatedTimeAlarm = 0 ∧
        (blinkUpdate s).alarmLed = !s.alarmLed) ∧
       (s.accumulatedTimeAlarm + TIME_INCREMENT_MS < BLINKING_TIME_OVER_TEMP_ALARM →
        (blinkUpdate s).accumulatedTimeAlarm =
          s.accumulatedTimeAlarm + TIME_INCREMENT_MS ∧
        (blinkUpdate s).alarmLed = s.alarmLed))) := by
  refine ⟨fun hg hot => ⟨fun hacc => ?_, fun hacc => ?_⟩,
          fun hg hot => ⟨fun hacc => ?_, fun hacc => ?_⟩,
          fun hg hot => ⟨fun hacc => ?_, fun hacc => ?_⟩⟩ <;>
    unfold blinkUpdate <;>
    rw [if_pos hA] <;>
    simp [hg, hot, hacc, Nat.not_le.mpr hacc]

/-- C5: blink cadence selection while the alarm is Active (under sensor
inputs that add no new cause this tick): with both the gas and
over-temperature cause flags set, the LED toggles and the accumulator
resets exactly when the accumulator reaches 100 ms; with gas alone, at
1000 ms; with over-temperature alone, at 500 ms; below the threshold the
accumulator just advances by the 10 ms tick and the LED phase is
unchanged. -/
theorem blink_cadence (s : SysState) (inp : Inputs)
    (hA : s.alarmState = true) (hq : inp.mq2 = true)
    (htest : inp.alarmTestButton = false)
    (htemp : ¬ (computedTempC
        (bufWrite s.lm35ReadingsArray s.lm35SampleIndex inp.lm35Read)
        > OVER_TEMP_LEVEL)) :
    (s.gasDetectorState = true → s.overTempDetectorState = true →
      ((s.accumulatedTimeAlarm + TIME_INCREMENT_MS ≥
          BLINKING_TIME_GAS_AND_OVER_TEMP_ALARM →
        (alarmActivationUpdate s inp).accumulatedTimeAlarm = 0 ∧
        (alarmActivationUpdate s inp).alarmLed = !s.alarmLed) ∧
       (s.accumulatedTimeAlarm + TIME_INCREMENT_MS <
          BLINKING_TIME_GAS_AND_OVER_TEMP_ALARM →
        (alarmActivationUpdate s inp).accumulatedTimeAlarm =
          s.accumulatedTimeAlarm + TIME_INCREMENT_MS ∧
        (alarmActivationUpdate s inp).alarmLed = s.alarmLed))) ∧
    (s.gasDetectorState = true → s.overTempDetectorState = false →
      ((s.accumulatedTimeAlarm + TIME_INCREMENT_MS ≥ BLINKING_TIME_GAS_ALARM →
        (alarmActivationUpdate s inp).accumulatedTimeAlarm = 0 ∧
        (alarmActivationUpdate s inp).alarmLed = !s.alarmLed) ∧
       (s.accumulatedTimeAlarm + TIME_INCREMENT_MS < BLINKING_TIME_GAS_ALARM →
        (alarmActivationUpdate s inp).accumulatedTimeAlarm =
          s.accumulatedTimeAlarm + TIME_INCREMENT_MS ∧
        (alarmActivationUpdate s inp).alarmLed = s.alarmLed))) ∧
    (s.gasDetectorState = false → s.overTempDetectorState = true →
      ((s.accumulatedTimeAlarm + TIME_INCREMENT_MS ≥ BLINKING_TIME_OVER_TEMP_ALARM →
        (alarmActivationUpdate s inp).accumulatedTimeAlarm = 0 ∧
        (alarmActivationUpdate s inp).alarmLed = !s.alarmLed) ∧
       (s.accumulatedTimeAlarm + TIME_INCREMENT_MS < BLINKING_TIME_OVER_TEMP_ALARM →
        (alarmActivationUpdate s inp).accumulatedTimeAlarm =
          s.accumulatedTimeAlarm + TIME_INCREMENT_MS ∧
        (alarmActivationUpdate s inp).alarmLed = s.alarmLed))) := by
  rw [activation_quiet s inp hq htest htemp]
  exact blinkUpdate_cadence (sensorStep s inp) hA

/-- The initial state with the alarm active for both the gas and
over-temperature causes and 90 ms accumulated (10 ms before the combined
100 ms cadence threshold). -/
def bothCausesState : SysState :=
  { initialState with alarmState := true, gasDetectorState := true,
                      overTempDetectorState := true, accumulatedTimeAlarm := 90 }

/-- C5 witness: instantiated at a concrete Active state with both cause
flags set and 90 ms accumulated, under a quiet tick. -/
theorem blink_cadence_witness :
    bothCausesState.alarmState = true ∧
    ¬ (computedTempC
        (bufWrite bothCausesState.lm35ReadingsArray bothCausesState.lm35SampleIndex
          quietInput.lm35Read) > OVER_TEMP_LEVEL) ∧
    bothCausesState.accumulatedTimeAlarm + TIME_INCREMENT_MS ≥
      BLINKING_TIME_GAS_AND_OVER_TEMP_ALARM ∧
    (alarmActivationUpdate bothCausesState quietInput).accumulatedTimeAlarm = 0 ∧
    (alarmActivationUpdate bothCausesState quietInput).alarmLed =
      !bothCausesState.alarmLed := by
  have ht := no_overTemp_of_zero bothCausesState quietInput (fun _ => rfl) rfl
  have h := (blink_cadence bothCausesState quietInput rfl rfl rfl ht).1 rfl rfl
  exact ⟨rfl, ht, by decide, (h.1 (by decide)).1, (h.1 (by decide)).2⟩

/-! ## Claim C6 -/

/-- C6: code comparison is exact digit-wise equality.  `areEqual` (the
keypad comparison) accepts iff every position matches, and any single
non-equal position makes it reject; the serial '4' loop over valid
'0'/'1' bytes accepts iff every byte encodes the secret digit at its
position; and on a match the keypad path (under its guards) and the serial
path both deactivate the alarm and reset the counter to 0. -/
theorem code_match_exact (code pressed : Fin 4 → ℤ) (digits : Fin 4 → Char)
    (s : SysState) (inp : Inputs) :
    (areEqual code pressed = true ↔ ∀ i, code i = pressed i) ∧
    ((∃ i, code i ≠ pressed i) → areEqual code pressed = false) ∧
    ((∀ i, digits i = '0' ∨ digits i = '1') →
      ((enterCodeLoop code digits).1 = false ↔
        ∀ i, code i = charDigitVal (digits i))) ∧
    (s.numberOfIncorrectCodes < 5 → s.incorrectCodeLed = false →
     s.alarmState = true → inp.enterButton = true →
     areEqual s.codeSequence (pressedOf inp) = true →
      (alarmDeactivationUpdate s inp).alarmState = false ∧
      (alarmDeactivationUpdate s inp).numberOfIncorrectCodes = 0) ∧
    (inp.serial = some ('4', digits) →
     (enterCodeLoop s.codeSequence digits).1 = false →
      (uartTask s inp).alarmState = false ∧
      (uartTask s inp).numberOfIncorrectCodes = 0) := by
  refine ⟨areEqual_iff code pressed, ?_, ?_, ?_, ?_⟩
  · rintro ⟨i, hi⟩
    cases hae : areEqual code pressed
    · rfl
    · exact absurd ((areEqual_iff code pressed).mp hae i) hi
  · intro hv
    rw [enterCodeLoop_false_iff]
    constructor
    · intro h i
      exact (mismatchAt_false_iff code digits i (hv i)).mp (h i)
    · intro h i
      exact (mismatchAt_false_iff code digits i (hv i)).mpr (h i)
  · intro h5 hled hA he heq
    simp only [alarmDeactivationUpdate]
    rw [if_pos h5]
    simp [he, hled, hA, heq]
  · intro hser hloop
    rw [uartTask_serial4 s inp digits hser, if_pos hloop]
    exact ⟨rfl, rfl⟩

/-- A tick that presses the correct keypad code AND delivers the correct
serial '4' entry at once (exercising both deactivation paths). -/
def comboInput : Inputs :=
  { enterCorrectInput with serial := some ('4', !['1', '1', '0', '0']) }

/-- C6 witness: at the concrete active state and the default secret code,
both the keypad entry {1,1,0,0} and the serial entry "1100" match and
deactivate, and the comparisons agree with digit-wise equality. -/
theorem code_match_exact_witness :
    activeAccState.numberOfIncorrectCodes < 5 ∧
    activeAccState.incorrectCodeLed = false ∧
    activeAccState.alarmState = true ∧
    comboInput.enterButton = true ∧
    areEqual activeAccState.codeSequence (pressedOf comboInput) = true ∧
    comboInput.serial = some ('4', !['1', '1', '0', '0']) ∧
    (enterCodeLoop activeAccState.codeSequence !['1', '1', '0', '0']).1 = false ∧
    (alarmDeactivationUpdate activeAccState comboInput).alarmState = false ∧
    (alarmDeactivationUpdate activeAccState comboInput).numberOfIncorrectCodes = 0 ∧
    (uartTask activeAccState comboInput).alarmState = false ∧
    (uartTask activeAccState comboInput).numberOfIncorrectCodes = 0 := by
  have h := code_match_exact activeAccState.codeSequence (pressedOf comboInput)
    !['1', '1', '0', '0'] activeAccState comboInput
  have hk := h.2.2.2.1 (by decide) rfl rfl rfl (by decide)
  have hs := h.2.2.2.2 rfl (by decide)
  exact ⟨by decide, rfl, rfl, rfl, by decide, rfl, by decide,
         hk.1, hk.2, hs.1, hs.2⟩

/-! ## Claim C7 -/

/-- C7: invalid-digit asymmetry between the serial sub-protocols.  In the
'4' entry, a byte outside {'0','1'} at any position makes the whole entry a
mismatch while all 4 positions are still consumed with one '*' echoed per
byte; in the '5' reset, such a byte leaves that secret-code digit
unchanged while the remaining positions are still processed ('1'/'0' bytes
overwrite their digit) and each byte is echoed with '*'. -/
theorem serial_invalid_digit_asymmetry (code : Fin 4 → ℤ) (digits : Fin 4 → Char)
    (i : Fin 4) (h0 : digits i ≠ '0') (h1 : digits i ≠ '1') :
    (enterCodeLoop code digits).1 = true ∧
    (enterCodeLoop code digits).2 = ['*', '*', '*', '*'] ∧
    (newCodeLoop code digits).1 i = code i ∧
    (newCodeLoop code digits).2 = ['*', '*', '*', '*'] ∧
    (∀ j, digits j = '1' → (newCodeLoop code digits).1 j = 1) ∧
    (∀ j, digits j = '0' → (newCodeLoop code digits).1 j = 0) := by
  refine ⟨?_, enterCodeLoop_snd code digits, ?_,
          newCodeLoop_snd code digits, ?_, ?_⟩
  · have hm : mismatchAt code digits i = true := by
      simp [mismatchAt, h0, h1]
    rw [enterCodeLoop_fst]
    fin_cases i <;> simp_all
  · rw [newCodeLoop_fst_apply, if_neg h1, if_neg h0]
  · intro j hj
    rw [newCodeLoop_fst_apply, if_pos hj]
  · intro j hj
    rw [newCodeLoop_fst_apply, if_neg (fun hc => absurd (hj.symm.trans hc) (by decide)),
        if_pos hj]

/-- C7 witness: instantiated at the secret code {1,1,0,0} and the byte
sequence "1x00" whose second byte 'x' is invalid. -/
theorem serial_invalid_digit_asymmetry_witness :
    (!['1', 'x', '0', '0'] : Fin 4 → Char) 1 ≠ '0' ∧
    (!['1', 'x', '0', '0'] : Fin 4 → Char) 1 ≠ '1' ∧
    ((enterCodeLoop ![1, 1, 0, 0] !['1', 'x', '0', '0']).1 = true ∧
     (enterCodeLoop ![1, 1, 0, 0] !['1', 'x', '0', '0']).2 = ['*', '*', '*', '*'] ∧
     (newCodeLoop ![1, 1, 0, 0] !['1', 'x', '0', '0']).1 1 = (![1, 1, 0, 0] : Fin 4 → ℤ) 1 ∧
     (newCodeLoop ![1, 1, 0, 0] !['1', 'x', '0', '0']).2 = ['*', '*', '*', '*'] ∧
     (∀ j, (!['1', 'x', '0', '0'] : Fin 4 → Char) j = '1' →
        (newCodeLoop ![1, 1, 0, 0] !['1', 'x', '0', '0']).1 j = 1) ∧
     (∀ j, (!['1', 'x', '0', '0'] : Fin 4 → Char) j = '0' →
        (newCodeLoop ![1, 1, 0, 0] !['1', 'x', '0', '0']).1 j = 0)) :=
  ⟨by decide, by decide,
   serial_invalid_digit_asymmetry ![1, 1, 0, 0] !['1', 'x', '0', '0'] 1
     (by decide) (by decide)⟩

/-! ## Claim C8 -/

/-- C8: temperature filtering: after any `alarmActivationUpdate` tick on a
state whose buffer cursor is in range, the computed Celsius temperature
equals the arithmetic mean of the 100 buffer slots times 3.3 divided by
0.01; the sampling step wrote the new reading at the old cursor position
and left every other slot unchanged; and the cursor advanced by one with
wraparound, remaining in [0, 100). -/
theorem temperature_filter_mean (s : SysState) (inp : Inputs)
    (hidx : s.lm35SampleIndex < 100) :
    (alarmActivationUpdate s inp).lm35TempC =
      (Finset.univ.sum (alarmActivationUpdate s inp).lm35ReadingsArray / 100)
        * (33/10) / (1/100) ∧
    (alarmActivationUpdate s inp).lm35ReadingsArray ⟨s.lm35SampleIndex, hidx⟩ =
      inp.lm35Read ∧
    (∀ j : Fin 100, (j : ℕ) ≠ s.lm35SampleIndex →
      (alarmActivationUpdate s inp).lm35ReadingsArray j = s.lm35ReadingsArray j) ∧
    (alarmActivationUpdate s inp).lm35SampleIndex = (s.lm35SampleIndex + 1) % 100 ∧
    (alarmActivationUpdate s inp).lm35SampleIndex < 100 := by
  have harr : (alarmActivationUpdate s inp).lm35ReadingsArray =
      bufWrite s.lm35ReadingsArray s.lm35SampleIndex inp.lm35Read := by
    unfold alarmActivationUpdate
    rw [(blinkUpdate_lm35 _).1, (causeStep_lm35 _ _).1]
    rfl
  have hidx' : (alarmActivationUpdate s inp).lm35SampleIndex =
      nextIndex s.lm35SampleIndex := by
    unfold alarmActivationUpdate
    rw [(blinkUpdate_lm35 _).2.1, (causeStep_lm35 _ _).2.1]
    rfl
  have htC : (alarmActivationUpdate s inp).lm35TempC =
      computedTempC (bufWrite s.lm35ReadingsArray s.lm35SampleIndex inp.lm35Read) := by
    unfold alarmActivationUpdate
    rw [(blinkUpdate_lm35 _).2.2, (causeStep_lm35 _ _).2.2]
    rfl
  refine ⟨?_, ?_, ?_, ?_, ?_⟩
  · rw [htC, harr, computedTempC, analogReadingScaledWithTheLM35Formula,
        readingsSum_eq]
  · rw [harr]
    simp [bufWrite]
  · intro j hj
    rw [harr]
    simp [bufWrite, hj]
  · rw [hidx']
    unfold nextIndex NUMBER_OF_AVG_SAMPLES
    split <;> omega
  · rw [hidx']
    unfold nextIndex NUMBER_OF_AVG_SAMPLES
    split <;> omega

/-- C8 witness: instantiated at the initial state (cursor 0, zero buffer)
and a quiet tick. -/
theorem temperature_filter_mean_witness :
    initialState.lm35SampleIndex < 100 ∧
    ((alarmActivationUpdate initialState quietInput).lm35TempC =
      (Finset.univ.sum (alarmActivationUpdate initialState quietInput).lm35ReadingsArray
        / 100) * (33/10) / (1/100) ∧
     (alarmActivationUpdate initialState quietInput).lm35ReadingsArray
        ⟨initialState.lm35SampleIndex, by decide⟩ = quietInput.lm35Read ∧
     (∀ j : Fin 100, (j : ℕ) ≠ initialState.lm35SampleIndex →
       (alarmActivationUpdate initialState quietInput).lm35ReadingsArray j =
         initialState.lm35ReadingsArray j) ∧
     (alarmActivationUpdate initialState quietInput).lm35SampleIndex =
       (initialState.lm35SampleIndex + 1) % 100 ∧
     (alarmActivationUpdate initialState quietInput).lm35SampleIndex < 100) :=
  ⟨by decide, temperature_filter_mean initialState quietInput (by decide)⟩

end GasAlarm
